import Mathlib

/-!
Verification development for the alternator client-side load-balancing layer:
node directory snapshots, the round-robin / key-affinity router, the
partition-key learner, and the shared HTTP transport helpers.

The router and learner are modelled from the specification (the repository
files under `src/` only contain the shared transport helpers and integration
tests); the transport helpers are embedded from `shared/utils.go`.
-/

deriving instance DecidableEq for Except

namespace Alternator

/-- Modelled from the spec: `NodeDescriptor` data model (§3) —
immutable value `{address, scheme, port, rack, datacenter, alive}`. -/
structure NodeDescriptor where
  address : String
  scheme : String
  port : Nat
  rack : String
  datacenter : String
  alive : Bool
deriving DecidableEq

/-- Modelled from the spec: `RoutingFilter` (§3) — optional required
datacenter and/or rack. -/
structure RoutingFilter where
  datacenter : Option String
  rack : Option String
deriving DecidableEq

/-- Modelled from the spec: error taxonomy (§7). Only `NoEligibleNode` and
`FilterUnsatisfiable` are surfaced by the router; `MembershipQueryFailed`
and `SchemaUnknown` are internal conditions. -/
inductive RoutingError where
  | NoEligibleNode
  | MembershipQueryFailed
  | SchemaUnknown
  | FilterUnsatisfiable
deriving DecidableEq

/-- Modelled from the spec: filtering is a pure predicate over
`NodeDescriptor` (§3) — a node matches when each requested datacenter/rack
component agrees with the node's. -/
def matchesFilter (f : RoutingFilter) (n : NodeDescriptor) : Bool :=
  (match f.datacenter with
   | none => true
   | some dc => n.datacenter == dc) &&
  (match f.rack with
   | none => true
   | some r => n.rack == r)

/-- Modelled from the spec: the eligible candidate set is the snapshot
filtered by the routing filter and by liveness (§4.4). -/
def eligible (f : RoutingFilter) (n : NodeDescriptor) : Bool :=
  matchesFilter f n && n.alive

/-- Modelled from the spec: whether the filter actually requests a
datacenter or a rack (a trivial filter requests nothing). -/
def filterRequested (f : RoutingFilter) : Bool :=
  f.datacenter.isSome || f.rack.isSome

/-- Modelled from the spec: error classification when the eligible set is
empty (§7) — a requested datacenter/rack that does not exist in the current
membership is `FilterUnsatisfiable`, surfaced distinctly from the transient
`NoEligibleNode`; otherwise (no filter requested, or some member matches the
filter but none is live, or the snapshot is empty) it is `NoEligibleNode`,
the "no nodes available" error of §3. -/
def classifyEmpty (snapshot : List NodeDescriptor) (f : RoutingFilter) : RoutingError :=
  if filterRequested f && !(snapshot.any (matchesFilter f)) then
    RoutingError.FilterUnsatisfiable
  else
    RoutingError.NoEligibleNode

/-- Modelled from the spec: §4.4 — selecting "that ordinal member" of the
eligible set: index the eligible list by the ordinal reduced into the index
space sized to the eligible set; when the eligible set is empty, fail with
the classified error. -/
def pickMember (elig : List NodeDescriptor) (err : RoutingError) (ordinal : Nat) :
    Except RoutingError NodeDescriptor :=
  if h : elig.length = 0 then Except.error err
  else Except.ok (elig.get ⟨ordinal % elig.length, Nat.mod_lt _ (Nat.pos_of_ne_zero h)⟩)

/-- Modelled from the spec: a stable hash of a canonical key string —
time- and call-count-independent (§4.4); a concrete polynomial string hash. -/
def stableHash (s : String) : Nat :=
  s.data.foldl (fun h c => h * 31 + c.toNat) 5381

/-- Modelled from the spec: key values are canonicalized by sorting on the
attribute name (§4.4, "(table, sorted keyValues)"). -/
def sortKeyValues (kv : List (String × String)) : List (String × String) :=
  List.insertionSort (fun p q => p.1 ≤ q.1) kv

/-- Modelled from the spec: the canonical key representation of a
`(table, keyValues)` pair (§4.4) — table name followed by the sorted
attribute/value pairs. -/
def canonicalKey (table : String) (kv : List (String × String)) : String :=
  (sortKeyValues kv).foldl (fun acc p => acc ++ ";" ++ p.1 ++ "=" ++ p.2) table

/-- Modelled from the spec: `selectByKey(table, keyValues, filter)` (§4.4) —
deterministically maps `(table, sorted keyValues)` to one member of the
current eligible candidate set by hashing the canonical key representation
into an index space sized to the eligible set and selecting that ordinal
member. -/
def selectByKey (snapshot : List NodeDescriptor) (f : RoutingFilter)
    (table : String) (keyValues : List (String × String)) :
    Except RoutingError NodeDescriptor :=
  pickMember (snapshot.filter (eligible f)) (classifyEmpty snapshot f)
    (stableHash (canonicalKey table keyValues))

/-- Modelled from the spec: `selectRoundRobin(filter)` (§4.4) — filters the
snapshot by filter and liveness, returns the next node in round-robin order
among eligible nodes, and advances the shared counter exactly once per call
regardless of list size. -/
def selectRoundRobin (snapshot : List NodeDescriptor) (f : RoutingFilter)
    (counter : Nat) : Except RoutingError NodeDescriptor × Nat :=
  (pickMember (snapshot.filter (eligible f)) (classifyEmpty snapshot f) counter,
   counter + 1)

/-- Modelled from the spec: the results of `n` consecutive
`selectRoundRobin` calls, threading the shared counter from call to call. -/
def rrRun (snapshot : List NodeDescriptor) (f : RoutingFilter) :
    Nat → Nat → List (Except RoutingError NodeDescriptor)
  | _, 0 => []
  | counter, n + 1 =>
    let step := selectRoundRobin snapshot f counter
    step.1 :: rrRun snapshot f step.2 n

/-- Modelled from the spec: one `PartitionKeySchema` entry (§3) — the
ordered key attribute names for a table, together with whether the entry is
authoritative (from table-creation metadata or preconfiguration) or merely
inferred from a key argument. -/
structure SchemaEntry where
  attrs : List String
  authoritative : Bool
deriving DecidableEq

/-- Modelled from the spec: the `PartitionKeyLearner` state (§4.3) — a
mapping from table name to its schema entry, absent when unknown. -/
def Learner : Type := String → Option SchemaEntry

/-- Modelled from the spec: the initial learner state — no table is known. -/
def emptyLearner : Learner := fun _ => none

/-- Modelled from the spec: `lookup(table)` (§4.3). -/
def lookup (s : Learner) (table : String) : Option SchemaEntry := s table

/-- Modelled from the spec: `learnFromTableSchema(table,
orderedKeyAttributeNames)` (§4.3) — authoritative; overwrites any prior
entry for the table. -/
def learnFromTableSchema (s : Learner) (table : String) (attrs : List String) : Learner :=
  fun t => if t = table then some ⟨attrs, true⟩ else s t

/-- Modelled from the spec: `preconfigure(table, orderedKeyAttributeNames)`
(§4.3) — same precedence as table-schema learning, supplied out of band. -/
def preconfigure (s : Learner) (table : String) (attrs : List String) : Learner :=
  fun t => if t = table then some ⟨attrs, true⟩ else s t

/-- Modelled from the spec: attribute names are sorted alphabetically before
comparison/storage (§3, §4.3). -/
def sortAttrs (attrs : List String) : List String :=
  List.insertionSort (fun a b => a ≤ b) attrs

/-- Modelled from the spec: `learnFromKeyArgument(table, keyAttributeNames)`
(§4.3) — best-effort; only writes if no authoritative entry exists yet for
the table; attribute names are sorted before storage. -/
def learnFromKeyArgument (s : Learner) (table : String) (attrs : List String) : Learner :=
  match s table with
  | some e =>
    if e.authoritative then s
    else fun t => if t = table then some ⟨sortAttrs attrs, false⟩ else s t
  | none => fun t => if t = table then some ⟨sortAttrs attrs, false⟩ else s t

/-- Modelled from the spec: the learner operations, as an explicit alphabet
so that invariants can be stated over every sequence of operations (§4.3). -/
inductive LearnerOp where
  | fromTableSchema (table : String) (attrs : List String)
  | fromKeyArgument (table : String) (attrs : List String)
  | preconfigureOp (table : String) (attrs : List String)

/-- Modelled from the spec: whether a learner operation is the best-effort
inference (`learnFromKeyArgument`) rather than an authoritative write. -/
def LearnerOp.isInference : LearnerOp → Bool
  | .fromKeyArgument _ _ => true
  | _ => false

/-- Modelled from the spec: apply one learner operation to the state. -/
def applyOp (s : Learner) : LearnerOp → Learner
  | .fromTableSchema t a => learnFromTableSchema s t a
  | .fromKeyArgument t a => learnFromKeyArgument s t a
  | .preconfigureOp t a => preconfigure s t a

/-- Modelled from the spec: apply a sequence of learner operations. -/
def applyOps (s : Learner) (ops : List LearnerOp) : Learner :=
  ops.foldl applyOp s

/-- Modelled from the spec: the operation kinds of the external operation
descriptor (§6). -/
inductive OperationKind where
  | createTable
  | getItem
  | putItem
  | updateItem
  | deleteItem
  | conditionalUpdate
  | conditionalDelete
deriving DecidableEq

/-- Modelled from the spec: which operation kinds are item writes. -/
def OperationKind.isWrite : OperationKind → Bool
  | .putItem | .updateItem | .deleteItem | .conditionalUpdate | .conditionalDelete => true
  | _ => false

/-- Modelled from the spec: which operation kinds are conditional
read-modify-write operations (§6, glossary: LWT / RMW). -/
def OperationKind.isConditionalRMW : OperationKind → Bool
  | .conditionalUpdate | .conditionalDelete => true
  | _ => false

/-- Modelled from the spec: `RouteAffinityMode` (§3) — one of
{None, RMWOnly, AnyWrite}. -/
inductive RouteAffinityMode where
  | None
  | RMWOnly
  | AnyWrite
deriving DecidableEq

/-- Modelled from the spec: whether the affinity mode permits key-based
routing for the operation kind (§4.4) — `RMWOnly` requires the operation to
be a conditional read-modify-write; `AnyWrite` permits any write. -/
def affinityPermits (mode : RouteAffinityMode) (op : OperationKind) : Bool :=
  match mode with
  | .None => false
  | .RMWOnly => op.isConditionalRMW
  | .AnyWrite => op.isWrite

/-- Modelled from the spec: extract the values of the named key attributes
from the operation's attribute map; fails when any is missing. -/
def extractAttrs (names : List String) (itemAttrs : List (String × String)) :
    Option (List (String × String)) :=
  names.mapM (fun n => (itemAttrs.lookup n).map (fun v => (n, v)))

/-- Modelled from the spec: key values are available when supplied directly
or resolved via the `PartitionKeyLearner` (§4.4) — the learner supplies the
key attribute names, whose values are then read off the operation's
attributes. -/
def resolveKeyValues (learner : Learner) (table : String)
    (keyValuesOrNone : Option (List (String × String)))
    (itemAttrs : List (String × String)) : Option (List (String × String)) :=
  match keyValuesOrNone with
  | some kv => some kv
  | none =>
    match learner table with
    | some e => extractAttrs e.attrs itemAttrs
    | none => none

/-- Modelled from the spec: `route(table, operationKind, keyValuesOrNone,
affinityMode, filter)` (§4.4) — uses `selectByKey` only when the affinity
mode permits it for the operation kind and key values are available;
otherwise falls back to `selectRoundRobin`. -/
def route (snapshot : List NodeDescriptor) (f : RoutingFilter)
    (learner : Learner) (counter : Nat) (table : String) (op : OperationKind)
    (keyValuesOrNone : Option (List (String × String)))
    (itemAttrs : List (String × String)) (mode : RouteAffinityMode) :
    Except RoutingError NodeDescriptor × Nat :=
  if affinityPermits mode op then
    match resolveKeyValues learner table keyValuesOrNone itemAttrs with
    | some kv => (selectByKey snapshot f table kv, counter)
    | none => selectRoundRobin snapshot f counter
  else
    selectRoundRobin snapshot f counter

/-- Opaque handle standing for Go's `io.Writer` (key log writer). -/
def GoWriter : Type := Nat

/-- Opaque handle standing for Go's `tls.ClientSessionCache`. -/
def GoSessionCache : Type := Nat

/-- Opaque handle standing for the helper's logger. -/
def GoLogger : Type := Nat

/-- Opaque handle standing for Go's `tls.CertificateRequestInfo`. -/
def CertificateRequestInfo : Type := Nat

/-- Opaque handle standing for Go's `tls.Certificate` / `x509.Certificate`. -/
def Certificate : Type := Nat

/-- Opaque handle standing for a Go `error` value. -/
def GoError : Type := Nat

/-- A raw certificate (Go `[]byte`). -/
def RawCert : Type := List Nat

/-- Embedding of the fields of Go's `tls.Config` touched by
`shared/utils.go`. `VerifyPeerCertificate` and `GetClientCertificate` are
function-valued fields, `none` when unset (Go `nil`). -/
structure TLSConfig where
  InsecureSkipVerify : Bool
  VerifyPeerCertificate : Option (List RawCert → List (List Certificate) → Option GoError)
  KeyLogWriter : Option GoWriter
  ClientSessionCache : Option GoSessionCache
  GetClientCertificate : Option (CertificateRequestInfo → Option Certificate × Option GoError)

/-- A freshly allocated empty `tls.Config`: every field at its Go zero
value, so standard certificate verification is enabled. -/
def freshTLSConfig : TLSConfig :=
  { InsecureSkipVerify := false
    VerifyPeerCertificate := none
    KeyLogWriter := none
    ClientSessionCache := none
    GetClientCertificate := none }

/-- Embedding of the fields of Go's `http.Transport` touched by
`shared/utils.go`. Durations are nanosecond counts (Go `time.Duration`). -/
structure Transport where
  IdleConnTimeout : Int
  MaxIdleConns : Int
  MaxIdleConnsPerHost : Int
  TLSClientConfig : Option TLSConfig

/-- Go's `http.DefaultTransport` as far as the embedded fields go:
`MaxIdleConns: 100`, `IdleConnTimeout: 90 * time.Second`, nil
`TLSClientConfig`, zero `MaxIdleConnsPerHost`. -/
def httpDefaultTransport : Transport :=
  { IdleConnTimeout := 90 * 1000000000
    MaxIdleConns := 100
    MaxIdleConnsPerHost := 0
    TLSClientConfig := none }

/-- The package constant `defaultIdleConnectionTimeout`; its defining file
is not under `src/`, the documented value is 6 hours. -/
def defaultIdleConnectionTimeout : Int := 6 * 60 * 60 * 1000000000

/-- `DefaultHTTPTransport` from `shared/utils.go`: clone
`http.DefaultTransport`, then set `IdleConnTimeout` to
`defaultIdleConnectionTimeout` and `MaxIdleConnsPerHost` to 100. -/
def DefaultHTTPTransport : Transport :=
  { httpDefaultTransport with
    IdleConnTimeout := defaultIdleConnectionTimeout
    MaxIdleConnsPerHost := 100 }

/-- Go's `http.RoundTripper` results of `NewALNHTTPTransport`: either the
patched `*http.Transport` itself or the value of a user-supplied wrapper. -/
inductive RoundTripper where
  | ofTransport (t : Transport)
  | external (id : Nat)

/-- Embedding of the helper's certificate source
(`config.ClientCertificateSource`), whose `GetClientCertificate` method
takes the request info and the configured logger. -/
structure CertificateSource where
  GetClientCertificate : CertificateRequestInfo → Option GoLogger → Option Certificate × Option GoError

/-- Embedding of the fields of `ALNConfig` used by `shared/utils.go`. -/
structure ALNConfig where
  IdleHTTPConnectionTimeout : Int
  MaxIdleHTTPConnections : Int
  KeyLogWriter : Option GoWriter
  IgnoreServerCertificateError : Bool
  TLSSessionCache : Option GoSessionCache
  ClientCertificateSource : Option CertificateSource
  HTTPTransportWrapper : Option (Transport → RoundTripper)
  Logger : Option GoLogger

/-- `PatchHTTPTransport` from `shared/utils.go`: unconditionally set
`IdleConnTimeout`, `MaxIdleConns` and `MaxIdleConnsPerHost` from the config,
allocate a fresh TLS config when the transport has none, then apply the
conditional TLS mutations (key log writer, certificate-error ignoring,
session cache, client certificate source). Go mutates the transport in
place and returns it; the embedding returns the updated value. -/
def PatchHTTPTransport (config : ALNConfig) (transport : Transport) : Transport :=
  let tls0 := transport.TLSClientConfig.getD freshTLSConfig
  let tls1 :=
    match config.KeyLogWriter with
    | some w => { tls0 with KeyLogWriter := some w }
    | none => tls0
  let tls2 :=
    if config.IgnoreServerCertificateError then
      { tls1 with
        InsecureSkipVerify := true
        VerifyPeerCertificate := some (fun _ _ => none) }
    else tls1
  let tls3 :=
    match config.TLSSessionCache with
    | some c => { tls2 with ClientSessionCache := some c }
    | none => tls2
  let tls4 :=
    match config.ClientCertificateSource with
    | some src =>
      { tls3 with
        GetClientCertificate := some (fun info => src.GetClientCertificate info config.Logger) }
    | none => tls3
  { transport with
    IdleConnTimeout := config.IdleHTTPConnectionTimeout
    MaxIdleConns := config.MaxIdleHTTPConnections
    MaxIdleConnsPerHost := config.MaxIdleHTTPConnections
    TLSClientConfig := some tls4 }

/-- `NewALNHTTPTransport` from `shared/utils.go`: patch a fresh
`DefaultHTTPTransport` from the config; apply the transport wrapper when one
is configured, otherwise return the transport itself. -/
def NewALNHTTPTransport (config : ALNConfig) : RoundTripper :=
  let transport := PatchHTTPTransport config DefaultHTTPTransport
  match config.HTTPTransportWrapper with
  | some w => w transport
  | none => RoundTripper.ofTransport transport

/-- Concrete live node `n1` used to instantiate the spec scenarios. -/
def node1 : NodeDescriptor := ⟨"n1", "http", 8000, "r1", "dc1", true⟩

/-- Concrete live node `n2`. -/
def node2 : NodeDescriptor := ⟨"n2", "http", 8000, "r1", "dc1", true⟩

/-- Concrete live node `n3`. -/
def node3 : NodeDescriptor := ⟨"n3", "http", 8000, "r1", "dc1", true⟩

/-- A concrete non-live node. -/
def deadNode : NodeDescriptor := ⟨"n4", "http", 8000, "r1", "dc1", false⟩

/-- The trivial routing filter: no datacenter or rack requested. -/
def noFilter : RoutingFilter := ⟨none, none⟩

/-- A filter requesting datacenter `dc1` (the one the concrete nodes are in). -/
def dc1Filter : RoutingFilter := ⟨some "dc1", none⟩

/-- A filter requesting datacenter `dc2` (absent from the concrete nodes). -/
def dc2Filter : RoutingFilter := ⟨some "dc2", none⟩

/-- Concrete three-node snapshot `{n1, n2, n3}`. -/
def snap3 : List NodeDescriptor := [node1, node2, node3]

/-- The snapshot after `n3` is removed and nothing else changes. -/
def snap2 : List NodeDescriptor := [node1, node2]

lemma pickMember_nil (err : RoutingError) (o : Nat) :
    pickMember [] err o = Except.error err := rfl

lemma pickMember_ok (elig : List NodeDescriptor) (err : RoutingError) (o : Nat)
    (h : elig ≠ []) :
    pickMember elig err o =
      Except.ok (elig.get ⟨o % elig.length, Nat.mod_lt _ (List.length_pos.mpr h)⟩) := by
  unfold pickMember
  rw [dif_neg (by simpa [List.length_eq_zero] using h)]

lemma classifyEmpty_of_no_request {snapshot : List NodeDescriptor} {f : RoutingFilter}
    (h : filterRequested f = false) :
    classifyEmpty snapshot f = RoutingError.NoEligibleNode := by
  unfold classifyEmpty
  rw [h]
  simp

lemma classifyEmpty_of_match {snapshot : List NodeDescriptor} {f : RoutingFilter}
    (h : snapshot.any (matchesFilter f) = true) :
    classifyEmpty snapshot f = RoutingError.NoEligibleNode := by
  unfold classifyEmpty
  rw [h]
  simp

lemma classifyEmpty_not_schema (snapshot : List NodeDescriptor) (f : RoutingFilter) :
    classifyEmpty snapshot f ≠ RoutingError.SchemaUnknown := by
  unfold classifyEmpty
  split <;> simp

lemma selectRoundRobin_counter (snapshot : List NodeDescriptor) (f : RoutingFilter)
    (c : Nat) : (selectRoundRobin snapshot f c).2 = c + 1 := rfl

lemma selectRoundRobin_ok (snapshot : List NodeDescriptor) (f : RoutingFilter) (c : Nat)
    (h : snapshot.filter (eligible f) ≠ []) :
    (selectRoundRobin snapshot f c).1 =
      Except.ok ((snapshot.filter (eligible f)).get
        ⟨c % (snapshot.filter (eligible f)).length, Nat.mod_lt _ (List.length_pos.mpr h)⟩) := by
  show pickMember _ _ _ = _
  rw [pickMember_ok _ _ _ h]

lemma selectRoundRobin_no_schema_error (snapshot : List NodeDescriptor)
    (f : RoutingFilter) (c : Nat) :
    (selectRoundRobin snapshot f c).1 ≠ Except.error RoutingError.SchemaUnknown := by
  show pickMember _ _ _ ≠ _
  unfold pickMember
  split
  · simpa using classifyEmpty_not_schema snapshot f
  · simp

lemma rrRun_eq_map (snapshot : List NodeDescriptor) (f : RoutingFilter) :
    ∀ (n c : Nat),
      rrRun snapshot f c n =
        (List.range n).map (fun i => (selectRoundRobin snapshot f (c + i)).1) := by
  intro n
  induction n with
  | zero => intro c; rfl
  | succ k ih =>
    intro c
    rw [List.range_succ_eq_map, List.map_cons, List.map_map]
    show (selectRoundRobin snapshot f c).1 :: rrRun snapshot f (c + 1) k = _
    rw [ih (c + 1)]
    refine congrArg₂ List.cons (by rw [Nat.add_zero]) ?_
    apply List.map_congr_left
    intro i _
    show (selectRoundRobin snapshot f (c + 1 + i)).1 = _
    have h : c + 1 + i = c + Nat.succ i := by omega
    rw [h]
    rfl

lemma unique_residue_shift (c0 r K : Nat) (hr : r < K) :
    ∃ j0, (j0 < K ∧ (c0 + j0) % K = r) ∧
      ∀ j, j < K → (c0 + j) % K = r → j = j0 := by
  have hK : 0 < K := Nat.lt_of_le_of_lt (Nat.zero_le r) hr
  have haK : c0 % K < K := Nat.mod_lt _ hK
  have hhit : (c0 + (K + r - c0 % K) % K) % K = r := by
    obtain ⟨q, hq⟩ : ∃ q, c0 = K * q + c0 % K := ⟨c0 / K, (Nat.div_add_mod c0 K).symm⟩
    rw [Nat.add_mod_mod]
    have hKq : K * (q + 1) = K * q + K := by ring
    have h2 : c0 + (K + r - c0 % K) = K * (q + 1) + r := by rw [hKq]; omega
    rw [h2, Nat.mul_add_mod, Nat.mod_eq_of_lt hr]
  refine ⟨(K + r - c0 % K) % K, ⟨Nat.mod_lt _ hK, hhit⟩, ?_⟩
  intro j hj hjr
  have hmod : (c0 + j) % K = (c0 + (K + r - c0 % K) % K) % K := by rw [hjr, hhit]
  have hcancel : j % K = (K + r - c0 % K) % K % K :=
    Nat.ModEq.add_left_cancel' c0 hmod
  rw [Nat.mod_mod_of_dvd _ dvd_rfl, Nat.mod_eq_of_lt hj] at hcancel
  exact hcancel

lemma countP_range_block (c0 r K : Nat) (hr : r < K) :
    (List.range K).countP (fun j => decide ((c0 + j) % K = r)) = 1 := by
  obtain ⟨j0, ⟨hj0K, hj0r⟩, huniq⟩ := unique_residue_shift c0 r K hr
  rw [List.countP_eq_length_filter]
  set l := (List.range K).filter (fun j => decide ((c0 + j) % K = r)) with hl
  have hmem : j0 ∈ l := by
    rw [hl, List.mem_filter]
    exact ⟨List.mem_range.mpr hj0K, by simpa using hj0r⟩
  have hall : ∀ x ∈ l, x = j0 := by
    intro x hx
    rw [hl, List.mem_filter] at hx
    exact huniq x (List.mem_range.mp hx.1) (by simpa using hx.2)
  have hnd : l.Nodup := (List.nodup_range K).filter _
  rcases hcase : l with _ | ⟨a, _ | ⟨b, rest⟩⟩
  · rw [hcase] at hmem
    exact absurd hmem (List.not_mem_nil j0)
  · rfl
  · exfalso
    rw [hcase] at hall hnd
    have ha : a = j0 := hall a (by simp)
    have hb : b = j0 := hall b (by simp)
    rw [List.nodup_cons] at hnd
    exact hnd.1 (by rw [ha, hb]; simp)

lemma countP_range_mul (c0 r K m : Nat) (hr : r < K) :
    (List.range (m * K)).countP (fun i => decide ((c0 + i) % K = r)) = m := by
  induction m with
  | zero => simp
  | succ k ih =>
    have hsplit : (k + 1) * K = k * K + K := by ring
    rw [hsplit, List.range_add, List.countP_append, ih, List.countP_map]
    have hblock :
        (List.range K).countP ((fun i => decide ((c0 + i) % K = r)) ∘ (k * K + ·)) = 1 := by
      have hcong : ∀ j ∈ List.range K,
          (((fun i => decide ((c0 + i) % K = r)) ∘ (k * K + ·)) j = true) ↔
            ((fun j => decide ((c0 + j) % K = r)) j = true) := by
        intro j _
        have harith : c0 + (k * K + j) = c0 + j + k * K := by ring
        simp only [Function.comp, decide_eq_true_eq]
        rw [harith, Nat.add_mul_mod_self_right]
      rw [List.countP_congr hcong]
      exact countP_range_block c0 r K hr
    rw [hblock]

lemma sortAttrs_eq_of_perm {l1 l2 : List String} (h : l1.Perm l2) :
    sortAttrs l1 = sortAttrs l2 :=
  List.eq_of_perm_of_sorted
    ((List.perm_insertionSort (fun a b : String => a ≤ b) l1).trans
      (h.trans (List.perm_insertionSort (fun a b : String => a ≤ b) l2).symm))
    (List.sorted_insertionSort (fun a b : String => a ≤ b) l1)
    (List.sorted_insertionSort (fun a b : String => a ≤ b) l2)

lemma learnFromKeyArgument_preserves_auth {s : Learner} {t : String} {e : SchemaEntry}
    (he : s t = some e) (ha : e.authoritative = true)
    (u : String) (attrs : List String) :
    learnFromKeyArgument s u attrs t = some e := by
  unfold learnFromKeyArgument
  cases hsu : s u with
  | some eu =>
    by_cases hauth : eu.authoritative
    · simp [hauth, he]
    · simp only [hauth, if_false, Bool.false_eq_true]
      by_cases hteq : t = u
      · subst hteq
        rw [hsu] at he
        cases he
        rw [ha] at hauth
        exact absurd rfl hauth
      · simp [hteq, he]
  | none =>
    by_cases hteq : t = u
    · subst hteq
      rw [hsu] at he
      cases he
    · simp [hteq, he]

/-- C9: after `PatchHTTPTransport(config, transport)` the transport's
`MaxIdleConns` and `MaxIdleConnsPerHost` both equal
`config.MaxIdleHTTPConnections` (hence each other) and its `IdleConnTimeout`
equals `config.IdleHTTPConnectionTimeout`, for every config (including a
zero `MaxIdleHTTPConnections`) and every transport — in particular
overwriting the `MaxIdleConnsPerHost = 100` and default idle timeout that
`DefaultHTTPTransport` installs. -/
theorem PatchHTTPTransport_idle_settings :
    ∀ (config : ALNConfig) (transport : Transport),
      (PatchHTTPTransport config transport).MaxIdleConns = config.MaxIdleHTTPConnections ∧
      (PatchHTTPTransport config transport).MaxIdleConnsPerHost = config.MaxIdleHTTPConnections ∧
      (PatchHTTPTransport config transport).IdleConnTimeout = config.IdleHTTPConnectionTimeout ∧
      DefaultHTTPTransport.MaxIdleConnsPerHost = 100 ∧
      DefaultHTTPTransport.IdleConnTimeout = defaultIdleConnectionTimeout :=
  fun _ _ => ⟨rfl, rfl, rfl, rfl, rfl⟩

/-- C6: `learnFromKeyArgument` applied to permuted key attribute lists
yields the identical learner state (attribute names are sorted before
comparison and storage), so learning is idempotent under permutation of the
caller's key order and never creates a spurious new schema for the table. -/
theorem learnFromKeyArgument_perm_invariant :
    ∀ (s : Learner) (table : String) (l1 l2 : List String), l1.Perm l2 →
      learnFromKeyArgument s table l1 = learnFromKeyArgument s table l2 := by
  intro s table l1 l2 h
  unfold learnFromKeyArgument
  rw [sortAttrs_eq_of_perm h]

/-- C6 witness: learning `[b, a]` and `[a, b]` for the same table produce
the same stored schema. -/
theorem learnFromKeyArgument_perm_invariant_witness :
    learnFromKeyArgument emptyLearner "T" ["b", "a"] =
      learnFromKeyArgument emptyLearner "T" ["a", "b"] :=
  learnFromKeyArgument_perm_invariant emptyLearner "T" ["b", "a"] ["a", "b"] (by decide)

/-- C5: once the learner holds an authoritative entry for a table (from
`learnFromTableSchema` or `preconfigure`), no sequence of
`learnFromKeyArgument` operations changes that table's entry; conversely,
`learnFromTableSchema` (and `preconfigure`, which has the same precedence)
installs its entry over any prior state. -/
theorem learner_precedence_invariant :
    (∀ (ops : List LearnerOp), (∀ op ∈ ops, op.isInference = true) →
      ∀ (s : Learner) (t : String) (e : SchemaEntry),
        lookup s t = some e → e.authoritative = true →
        lookup (applyOps s ops) t = some e) ∧
    (∀ (s : Learner) (t : String) (attrs : List String),
      lookup (learnFromTableSchema s t attrs) t = some ⟨attrs, true⟩) ∧
    (∀ (s : Learner) (t : String) (attrs : List String),
      lookup (preconfigure s t attrs) t = some ⟨attrs, true⟩) := by
  refine ⟨?_, ?_, ?_⟩
  · intro ops
    induction ops with
    | nil => intro _ s t e he _; exact he
    | cons op rest ih =>
      intro hinf s t e he ha
      have hop : op.isInference = true := hinf op (List.mem_cons_self op rest)
      have hrest : ∀ o ∈ rest, o.isInference = true :=
        fun o ho => hinf o (List.mem_cons_of_mem op ho)
      cases op with
      | fromTableSchema u a => simp [LearnerOp.isInference] at hop
      | preconfigureOp u a => simp [LearnerOp.isInference] at hop
      | fromKeyArgument u a =>
        have hstep : lookup (applyOp s (LearnerOp.fromKeyArgument u a)) t = some e :=
          learnFromKeyArgument_preserves_auth he ha u a
        exact ih hrest (applyOp s (LearnerOp.fromKeyArgument u a)) t e hstep ha
  · intro s t attrs
    show (if t = t then some ⟨attrs, true⟩ else s t) = some ⟨attrs, true⟩
    rw [if_pos rfl]
  · intro s t attrs
    show (if t = t then some ⟨attrs, true⟩ else s t) = some ⟨attrs, true⟩
    rw [if_pos rfl]

/-- C5 witness: a table learned authoritatively as `[id]` keeps that schema
across a later `learnFromKeyArgument` with different attributes, and an
authoritative write lands for a fresh table. -/
theorem learner_precedence_invariant_witness :
    lookup (applyOps (learnFromTableSchema emptyLearner "T" ["id"])
      [LearnerOp.fromKeyArgument "T" ["x"]]) "T" = some ⟨["id"], true⟩ ∧
    lookup (learnFromTableSchema emptyLearner "U" ["a"]) "U" = some ⟨["a"], true⟩ :=
  ⟨learner_precedence_invariant.1 [LearnerOp.fromKeyArgument "T" ["x"]] (by decide)
      (learnFromTableSchema emptyLearner "T" ["id"]) "T" ⟨["id"], true⟩ (by decide) rfl,
    learner_precedence_invariant.2.1 emptyLearner "U" ["a"]⟩

/-- C1: `selectByKey` is a pure function of the eligible candidate set and
the stable hash of the canonical key representation: any two calls with the
same `(table, keyValues)` pair whose snapshots and filters induce the same
non-empty eligible candidate set return the same node — independent of time
or call count (the model threads no call state through `selectByKey`). -/
theorem selectByKey_deterministic :
    ∀ (snap1 snap2 : List NodeDescriptor) (f1 f2 : RoutingFilter)
      (table : String) (kv : List (String × String)),
      snap1.filter (eligible f1) = snap2.filter (eligible f2) →
      snap1.filter (eligible f1) ≠ [] →
      selectByKey snap1 f1 table kv = selectByKey snap2 f2 table kv := by
  intro snap1 snap2 f1 f2 table kv heq hne
  have hne2 : snap2.filter (eligible f2) ≠ [] := heq ▸ hne
  show pickMember (snap1.filter (eligible f1)) (classifyEmpty snap1 f1) _ =
    pickMember (snap2.filter (eligible f2)) (classifyEmpty snap2 f2) _
  rw [heq, pickMember_ok _ _ _ hne2, pickMember_ok _ _ _ hne2]

/-- C1 witness: adding a dead node to the snapshot leaves the eligible set,
and hence the selected node, unchanged. -/
theorem selectByKey_deterministic_witness :
    selectByKey snap3 noFilter "orders" [("orderId", "X")] =
      selectByKey (snap3 ++ [deadNode]) noFilter "orders" [("orderId", "X")] :=
  selectByKey_deterministic snap3 (snap3 ++ [deadNode]) noFilter noFilter
    "orders" [("orderId", "X")] (by decide) (by decide)

/-- C7: `selectRoundRobin` never returns a node outside the filtered
datacenter; when a datacenter/rack is requested and no node of the current
membership matches it, the result is `FilterUnsatisfiable`, which is a
different error value than `NoEligibleNode`. -/
theorem selectRoundRobin_filter_respect :
    (∀ (snap : List NodeDescriptor) (f : RoutingFilter) (c : Nat) (n : NodeDescriptor),
      (selectRoundRobin snap f c).1 = Except.ok n →
      ∀ dc, f.datacenter = some dc → n.datacenter = dc) ∧
    (∀ (snap : List NodeDescriptor) (f : RoutingFilter) (c : Nat),
      filterRequested f = true →
      (∀ n ∈ snap, matchesFilter f n = false) →
      (selectRoundRobin snap f c).1 = Except.error RoutingError.FilterUnsatisfiable) ∧
    RoutingError.FilterUnsatisfiable ≠ RoutingError.NoEligibleNode := by
  refine ⟨?_, ?_, by decide⟩
  · intro snap f c n h dc hdc
    have hmem : n ∈ snap.filter (eligible f) := by
      revert h
      show pickMember _ _ _ = _ → _
      unfold pickMember
      split
      · intro h; cases h
      · intro h
        have := Except.ok.inj h
        rw [← this]
        exact List.get_mem _ _ _
    have helig : eligible f n = true := (List.mem_filter.mp hmem).2
    have hmatch : matchesFilter f n = true := by
      unfold eligible at helig
      exact (Bool.and_eq_true _ _).mp helig |>.1
    unfold matchesFilter at hmatch
    rw [hdc] at hmatch
    have := (Bool.and_eq_true _ _).mp hmatch |>.1
    simpa using this
  · intro snap f c hreq hnone
    have hany : snap.any (matchesFilter f) = false := by
      rw [List.any_eq_false]
      intro x hx
      simp [hnone x hx]
    have hfil : snap.filter (eligible f) = [] := by
      rw [List.filter_eq_nil_iff]
      intro a ha
      simp [eligible, hnone a ha]
    show pickMember _ _ _ = _
    rw [hfil, pickMember_nil]
    unfold classifyEmpty
    rw [hreq, hany]
    rfl

/-- C7 witness: with the concrete one-node membership in `dc1`, a returned
node is in the filtered datacenter, and a `dc2` filter that matches no node
yields `FilterUnsatisfiable`. -/
theorem selectRoundRobin_filter_respect_witness :
    node1.datacenter = "dc1" ∧
    (selectRoundRobin [node1] dc2Filter 0).1 =
      Except.error RoutingError.FilterUnsatisfiable :=
  ⟨selectRoundRobin_filter_respect.1 [node1] dc1Filter 0 node1 (by decide) "dc1" rfl,
    selectRoundRobin_filter_respect.2.1 [node1] dc2Filter 0 (by decide) (by decide)⟩

/-- C3: `route` performs key-based selection exactly when the affinity mode
permits the operation kind and key values resolve (directly or through the
learner); in every other case — including `RMWOnly` with a plain
non-conditional write, and an unknown table schema with no supplied key
values — it falls back to `selectRoundRobin` and never surfaces a
`SchemaUnknown` error. -/
theorem route_affinity_decision :
    (∀ (snap : List NodeDescriptor) (f : RoutingFilter) (learner : Learner)
        (c : Nat) (table : String) (op : OperationKind)
        (kvOrNone : Option (List (String × String)))
        (attrs : List (String × String)) (mode : RouteAffinityMode)
        (kv : List (String × String)),
      affinityPermits mode op = true →
      resolveKeyValues learner table kvOrNone attrs = some kv →
      route snap f learner c table op kvOrNone attrs mode =
        (selectByKey snap f table kv, c)) ∧
    (∀ (snap : List NodeDescriptor) (f : RoutingFilter) (learner : Learner)
        (c : Nat) (table : String) (op : OperationKind)
        (kvOrNone : Option (List (String × String)))
        (attrs : List (String × String)) (mode : RouteAffinityMode),
      affinityPermits mode op = false ∨
        resolveKeyValues learner table kvOrNone attrs = none →
      route snap f learner c table op kvOrNone attrs mode =
        selectRoundRobin snap f c) ∧
    (∀ (snap : List NodeDescriptor) (f : RoutingFilter) (learner : Learner)
        (c : Nat) (table : String) (op : OperationKind)
        (kvOrNone : Option (List (String × String)))
        (attrs : List (String × String)),
      op.isWrite = true → op.isConditionalRMW = false →
      route snap f learner c table op kvOrNone attrs RouteAffinityMode.RMWOnly =
        selectRoundRobin snap f c) ∧
    (∀ (snap : List NodeDescriptor) (f : RoutingFilter) (learner : Learner)
        (c : Nat) (table : String) (op : OperationKind)
        (attrs : List (String × String)) (mode : RouteAffinityMode),
      lookup learner table = none →
      route snap f learner c table op none attrs mode = selectRoundRobin snap f c ∧
      (route snap f learner c table op none attrs mode).1 ≠
        Except.error RoutingError.SchemaUnknown) := by
  have hfall : ∀ (snap : List NodeDescriptor) (f : RoutingFilter) (learner : Learner)
      (c : Nat) (table : String) (op : OperationKind)
      (kvOrNone : Option (List (String × String)))
      (attrs : List (String × String)) (mode : RouteAffinityMode),
      affinityPermits mode op = false ∨
        resolveKeyValues learner table kvOrNone attrs = none →
      route snap f learner c table op kvOrNone attrs mode =
        selectRoundRobin snap f c := by
    intro snap f learner c table op kvOrNone attrs mode h
    rcases h with h | h
    · simp [route, h]
    · by_cases hp : affinityPermits mode op
      · simp [route, hp, h]
      · simp [route, hp]
  refine ⟨?_, hfall, ?_, ?_⟩
  · intro snap f learner c table op kvOrNone attrs mode kv hp hres
    simp [route, hp, hres]
  · intro snap f learner c table op kvOrNone attrs hw hrmw
    exact hfall snap f learner c table op kvOrNone attrs RouteAffinityMode.RMWOnly
      (Or.inl (by simp [affinityPermits, hrmw]))
  · intro snap f learner c table op attrs mode hlook
    have hres : resolveKeyValues learner table none attrs = none := by
      unfold resolveKeyValues
      rw [show learner table = none from hlook]
    have heq := hfall snap f learner c table op none attrs mode (Or.inr hres)
    refine ⟨heq, ?_⟩
    rw [heq]
    exact selectRoundRobin_no_schema_error snap f c

/-- C3 witness: a conditional update with supplied key values routes by key;
a plain put under `RMWOnly` and an unknown-schema table with no key values
both fall back to round-robin. -/
theorem route_affinity_decision_witness :
    route snap3 noFilter emptyLearner 0 "T" OperationKind.conditionalUpdate
        (some [("id", "x")]) [] RouteAffinityMode.RMWOnly =
      (selectByKey snap3 noFilter "T" [("id", "x")], 0) ∧
    route snap3 noFilter emptyLearner 0 "T" OperationKind.putItem
        none [] RouteAffinityMode.RMWOnly = selectRoundRobin snap3 noFilter 0 ∧
    route snap3 noFilter emptyLearner 0 "T" OperationKind.putItem
        none [] RouteAffinityMode.AnyWrite = selectRoundRobin snap3 noFilter 0 :=
  ⟨route_affinity_decision.1 snap3 noFilter emptyLearner 0 "T"
      OperationKind.conditionalUpdate (some [("id", "x")]) [] RouteAffinityMode.RMWOnly
      [("id", "x")] rfl rfl,
    route_affinity_decision.2.2.1 snap3 noFilter emptyLearner 0 "T"
      OperationKind.putItem none [] rfl rfl,
    (route_affinity_decision.2.2.2 snap3 noFilter emptyLearner 0 "T"
      OperationKind.putItem [] RouteAffinityMode.AnyWrite rfl).1⟩

/-- C10: with no `HTTPTransportWrapper`, `NewALNHTTPTransport` returns the
patched transport, whose TLS config disables certificate verification
(`InsecureSkipVerify` set, `VerifyPeerCertificate` replaced by an
always-nil function) exactly when `IgnoreServerCertificateError` is true;
when the flag is false the fresh TLS config keeps standard verification
(`InsecureSkipVerify` false and no `VerifyPeerCertificate` override). -/
theorem NewALNHTTPTransport_tls_verification :
    ∀ config : ALNConfig, config.HTTPTransportWrapper = none →
      ∃ t : Transport, NewALNHTTPTransport config = RoundTripper.ofTransport t ∧
        ∃ tls : TLSConfig, t.TLSClientConfig = some tls ∧
          tls.InsecureSkipVerify = config.IgnoreServerCertificateError ∧
          (config.IgnoreServerCertificateError = true →
            ∃ vf, tls.VerifyPeerCertificate = some vf ∧ ∀ a b, vf a b = none) ∧
          (config.IgnoreServerCertificateError = false →
            tls.VerifyPeerCertificate = none) := by
  intro config hw
  rcases config with ⟨it, mi, klw, ig, tsc, ccs, htw, lg⟩
  cases hw
  refine ⟨_, rfl, ?_⟩
  cases klw <;> cases ig <;> cases tsc <;> cases ccs <;>
    dsimp only [PatchHTTPTransport, DefaultHTTPTransport, httpDefaultTransport,
      freshTLSConfig, Option.getD] <;>
    refine ⟨_, rfl, rfl, ?_, ?_⟩ <;>
    intro h <;>
    first
    | exact absurd h (by decide)
    | exact ⟨fun _ _ => none, rfl, fun _ _ => rfl⟩
    | rfl

/-- C10 witness: a concrete config with the flag set gets the insecure TLS
settings on the returned transport. -/
theorem NewALNHTTPTransport_tls_verification_witness :
    ∃ t : Transport,
      NewALNHTTPTransport
          ⟨0, 0, none, true, none, none, none, none⟩ = RoundTripper.ofTransport t ∧
        ∃ tls : TLSConfig, t.TLSClientConfig = some tls ∧
          tls.InsecureSkipVerify = true ∧
          (true = true → ∃ vf, tls.VerifyPeerCertificate = some vf ∧ ∀ a b, vf a b = none) ∧
          (true = false → tls.VerifyPeerCertificate = none) :=
  NewALNHTTPTransport_tls_verification ⟨0, 0, none, true, none, none, none, none⟩ rfl

/-- C8 counterexample: a snapshot whose filtered live candidate set is empty
because the requested datacenter matches no member yields
`FilterUnsatisfiable`, not the `NoEligibleNode` error the claim requires for
every empty filtered live candidate set. -/
theorem routing_empty_counterexample :
    [node1].filter (eligible dc2Filter) = [] ∧
    (selectRoundRobin [node1] dc2Filter 0).1 =
      Except.error RoutingError.FilterUnsatisfiable ∧
    (selectRoundRobin [node1] dc2Filter 0).1 ≠
      Except.error RoutingError.NoEligibleNode := by decide

lemma classifyEmpty_of_unsat {snapshot : List NodeDescriptor} {f : RoutingFilter}
    (hreq : filterRequested f = true) (hany : snapshot.any (matchesFilter f) = false) :
    classifyEmpty snapshot f = RoutingError.FilterUnsatisfiable := by
  unfold classifyEmpty
  rw [hreq, hany]
  rfl

lemma selectRoundRobin_empty_error (snap : List NodeDescriptor) (f : RoutingFilter)
    (c : Nat) (hfil : snap.filter (eligible f) = []) :
    (selectRoundRobin snap f c).1 = Except.error (classifyEmpty snap f) := by
  show pickMember _ _ _ = _
  rw [hfil, pickMember_nil]

lemma selectByKey_empty_error (snap : List NodeDescriptor) (f : RoutingFilter)
    (table : String) (kv : List (String × String))
    (hfil : snap.filter (eligible f) = []) :
    selectByKey snap f table kv = Except.error (classifyEmpty snap f) := by
  show pickMember _ _ _ = _
  rw [hfil, pickMember_nil]

lemma route_empty_error (snap : List NodeDescriptor) (f : RoutingFilter)
    (learner : Learner) (c : Nat) (table : String) (op : OperationKind)
    (kvOrNone : Option (List (String × String))) (attrs : List (String × String))
    (mode : RouteAffinityMode) (hfil : snap.filter (eligible f) = []) :
    (route snap f learner c table op kvOrNone attrs mode).1 =
      Except.error (classifyEmpty snap f) := by
  unfold route
  split
  · cases hres : resolveKeyValues learner table kvOrNone attrs with
    | some kv => simp only [hres]; exact selectByKey_empty_error snap f table kv hfil
    | none => simp only [hres]; exact selectRoundRobin_empty_error snap f c hfil
  · exact selectRoundRobin_empty_error snap f c hfil

/-- C8 amended: routing operations on an empty eligible candidate set always
return an error value (never a crash), with the same classification for
`selectRoundRobin`, `selectByKey` and `route` alike: `NoEligibleNode` when
some member matches the requested filter but none is live, and on the
zero-node snapshot with no datacenter/rack requested; `FilterUnsatisfiable`
when a datacenter/rack is requested and no member matches it. -/
theorem routing_empty_classification :
    (∀ (snap : List NodeDescriptor) (f : RoutingFilter) (c : Nat),
      snap.filter (eligible f) = [] → snap.any (matchesFilter f) = true →
      (selectRoundRobin snap f c).1 = Except.error RoutingError.NoEligibleNode) ∧
    (∀ (snap : List NodeDescriptor) (f : RoutingFilter) (table : String)
        (kv : List (String × String)),
      snap.filter (eligible f) = [] → snap.any (matchesFilter f) = true →
      selectByKey snap f table kv = Except.error RoutingError.NoEligibleNode) ∧
    (∀ (snap : List NodeDescriptor) (f : RoutingFilter) (learner : Learner)
        (c : Nat) (table : String) (op : OperationKind)
        (kvOrNone : Option (List (String × String)))
        (attrs : List (String × String)) (mode : RouteAffinityMode),
      snap.filter (eligible f) = [] → snap.any (matchesFilter f) = true →
      (route snap f learner c table op kvOrNone attrs mode).1 =
        Except.error RoutingError.NoEligibleNode) ∧
    (∀ (f : RoutingFilter) (c : Nat), filterRequested f = false →
      (selectRoundRobin ([] : List NodeDescriptor) f c).1 =
        Except.error RoutingError.NoEligibleNode) ∧
    (∀ (f : RoutingFilter) (table : String) (kv : List (String × String)),
      filterRequested f = false →
      selectByKey ([] : List NodeDescriptor) f table kv =
        Except.error RoutingError.NoEligibleNode) ∧
    (∀ (f : RoutingFilter) (learner : Learner) (c : Nat) (table : String)
        (op : OperationKind) (kvOrNone : Option (List (String × String)))
        (attrs : List (String × String)) (mode : RouteAffinityMode),
      filterRequested f = false →
      (route ([] : List NodeDescriptor) f learner c table op kvOrNone attrs mode).1 =
        Except.error RoutingError.NoEligibleNode) ∧
    (∀ (snap : List NodeDescriptor) (f : RoutingFilter) (c : Nat),
      snap.filter (eligible f) = [] → filterRequested f = true →
      snap.any (matchesFilter f) = false →
      (selectRoundRobin snap f c).1 =
        Except.error RoutingError.FilterUnsatisfiable) ∧
    (∀ (snap : List NodeDescriptor) (f : RoutingFilter) (table : String)
        (kv : List (String × String)),
      snap.filter (eligible f) = [] → filterRequested f = true →
      snap.any (matchesFilter f) = false →
      selectByKey snap f table kv =
        Except.error RoutingError.FilterUnsatisfiable) ∧
    (∀ (snap : List NodeDescriptor) (f : RoutingFilter) (learner : Learner)
        (c : Nat) (table : String) (op : OperationKind)
        (kvOrNone : Option (List (String × String)))
        (attrs : List (String × String)) (mode : RouteAffinityMode),
      snap.filter (eligible f) = [] → filterRequested f = true →
      snap.any (matchesFilter f) = false →
      (route snap f learner c table op kvOrNone attrs mode).1 =
        Except.error RoutingError.FilterUnsatisfiable) := by
  refine ⟨?_, ?_, ?_, ?_, ?_, ?_, ?_, ?_, ?_⟩
  · intro snap f c hfil hany
    rw [selectRoundRobin_empty_error snap f c hfil, classifyEmpty_of_match hany]
  · intro snap f table kv hfil hany
    rw [selectByKey_empty_error snap f table kv hfil, classifyEmpty_of_match hany]
  · intro snap f learner c table op kvOrNone attrs mode hfil hany
    rw [route_empty_error snap f learner c table op kvOrNone attrs mode hfil,
      classifyEmpty_of_match hany]
  · intro f c hreq
    rw [selectRoundRobin_empty_error [] f c rfl, classifyEmpty_of_no_request hreq]
  · intro f table kv hreq
    rw [selectByKey_empty_error [] f table kv rfl, classifyEmpty_of_no_request hreq]
  · intro f learner c table op kvOrNone attrs mode hreq
    rw [route_empty_error [] f learner c table op kvOrNone attrs mode rfl,
      classifyEmpty_of_no_request hreq]
  · intro snap f c hfil hreq hany
    rw [selectRoundRobin_empty_error snap f c hfil, classifyEmpty_of_unsat hreq hany]
  · intro snap f table kv hfil hreq hany
    rw [selectByKey_empty_error snap f table kv hfil, classifyEmpty_of_unsat hreq hany]
  · intro snap f learner c table op kvOrNone attrs mode hfil hreq hany
    rw [route_empty_error snap f learner c table op kvOrNone attrs mode hfil,
      classifyEmpty_of_unsat hreq hany]

/-- C8 amended witness: all nine cells at concrete inputs — the
matching-but-dead member, the zero-node snapshot with no filter, and the
unmatched `dc2` filter each yield the classified error for
`selectRoundRobin`, `selectByKey` and `route` alike. -/
theorem routing_empty_classification_witness :
    (selectRoundRobin [deadNode] noFilter 0).1 =
      Except.error RoutingError.NoEligibleNode ∧
    selectByKey [deadNode] noFilter "T" [("id", "x")] =
      Except.error RoutingError.NoEligibleNode ∧
    (route [deadNode] noFilter emptyLearner 0 "T"
        OperationKind.getItem none [] RouteAffinityMode.None).1 =
      Except.error RoutingError.NoEligibleNode ∧
    (selectRoundRobin ([] : List NodeDescriptor) noFilter 0).1 =
      Except.error RoutingError.NoEligibleNode ∧
    selectByKey ([] : List NodeDescriptor) noFilter "T" [("id", "x")] =
      Except.error RoutingError.NoEligibleNode ∧
    (route ([] : List NodeDescriptor) noFilter emptyLearner 0 "T"
        OperationKind.getItem none [] RouteAffinityMode.None).1 =
      Except.error RoutingError.NoEligibleNode ∧
    (selectRoundRobin [node1] dc2Filter 0).1 =
      Except.error RoutingError.FilterUnsatisfiable ∧
    selectByKey [node1] dc2Filter "T" [("id", "x")] =
      Except.error RoutingError.FilterUnsatisfiable ∧
    (route [node1] dc2Filter emptyLearner 0 "T"
        OperationKind.getItem none [] RouteAffinityMode.None).1 =
      Except.error RoutingError.FilterUnsatisfiable :=
  ⟨routing_empty_classification.1 [deadNode] noFilter 0 (by decide) (by decide),
    routing_empty_classification.2.1 [deadNode] noFilter "T" [("id", "x")]
      (by decide) (by decide),
    routing_empty_classification.2.2.1 [deadNode] noFilter emptyLearner 0 "T"
      OperationKind.getItem none [] RouteAffinityMode.None (by decide) (by decide),
    routing_empty_classification.2.2.2.1 noFilter 0 rfl,
    routing_empty_classification.2.2.2.2.1 noFilter "T" [("id", "x")] rfl,
    routing_empty_classification.2.2.2.2.2.1 noFilter emptyLearner 0 "T"
      OperationKind.getItem none [] RouteAffinityMode.None rfl,
    routing_empty_classification.2.2.2.2.2.2.1 [node1] dc2Filter 0
      (by decide) (by decide) (by decide),
    routing_empty_classification.2.2.2.2.2.2.2.1 [node1] dc2Filter "T" [("id", "x")]
      (by decide) (by decide) (by decide),
    routing_empty_classification.2.2.2.2.2.2.2.2 [node1] dc2Filter emptyLearner 0 "T"
      OperationKind.getItem none [] RouteAffinityMode.None
      (by decide) (by decide) (by decide)⟩

lemma get_compare_snap3_snap2 :
    ∀ (i : Fin (snap3.filter (eligible noFilter)).length)
      (j : Fin (snap2.filter (eligible noFilter)).length),
      (snap3.filter (eligible noFilter)).get i = (snap2.filter (eligible noFilter)).get j ↔
        (i.val = 0 ∧ j.val = 0 ∨ i.val = 1 ∧ j.val = 1) := by decide

/-- C4 counterexample: over the key population `k0, k3, k4, k5` every
previously stable mapping of the three-node set changes its target when
`n3` is removed — the changed fraction is 100%, not a bounded fraction
strictly below it. -/
theorem selectByKey_redistribution_counterexample :
    selectByKey snap3 noFilter "T" [("id", "k0")] = Except.ok node3 ∧
    selectByKey snap2 noFilter "T" [("id", "k0")] = Except.ok node2 ∧
    selectByKey snap3 noFilter "T" [("id", "k3")] = Except.ok node3 ∧
    selectByKey snap2 noFilter "T" [("id", "k3")] = Except.ok node1 ∧
    selectByKey snap3 noFilter "T" [("id", "k4")] = Except.ok node1 ∧
    selectByKey snap2 noFilter "T" [("id", "k4")] = Except.ok node2 ∧
    selectByKey snap3 noFilter "T" [("id", "k5")] = Except.ok node2 ∧
    selectByKey snap2 noFilter "T" [("id", "k5")] = Except.ok node1 ∧
    node1 ≠ node2 ∧ node1 ≠ node3 ∧ node2 ≠ node3 := by decide

/-- C4 amended: the modelled ordinal selection is the plain
hash-modulo-set-size scheme, which does not minimize redistribution: after
removing `n3` from the three-node set a key keeps its node exactly when its
canonical hash is 0 or 1 modulo 6, so only a 1/3 slice of the hash space is
stable and key populations exist (see the counterexample) in which every
previously stable mapping changes. -/
theorem selectByKey_modulo_redistribution :
    ∀ (table : String) (kv : List (String × String)),
      selectByKey snap3 noFilter table kv = selectByKey snap2 noFilter table kv ↔
        stableHash (canonicalKey table kv) % 6 < 2 := by
  intro table kv
  have h3ne : snap3.filter (eligible noFilter) ≠ [] := by decide
  have h2ne : snap2.filter (eligible noFilter) ≠ [] := by decide
  unfold selectByKey
  rw [pickMember_ok _ _ _ h3ne, pickMember_ok _ _ _ h2ne, Except.ok.injEq,
    get_compare_snap3_snap2]
  have l3 : (snap3.filter (eligible noFilter)).length = 3 := by decide
  have l2 : (snap2.filter (eligible noFilter)).length = 2 := by decide
  dsimp only
  rw [l3, l2]
  omega

/-- C2: over any window of `N = m * K` consecutive `selectRoundRobin` calls
on an unchanged snapshot with `K` distinct eligible nodes, every eligible
node is returned exactly `m` times; the calls visit the eligible list in
strict cyclic order (call `i` returns the eligible member at index
`(c0 + i) mod K`, skipping non-matching and non-live entries by
construction of the eligible list), and the shared counter advances exactly
once per call regardless of the snapshot size. -/
theorem selectRoundRobin_fair :
    ∀ (snap : List NodeDescriptor) (f : RoutingFilter) (c0 m : Nat),
      (snap.filter (eligible f)).Nodup →
      snap.filter (eligible f) ≠ [] →
      (∀ n ∈ snap.filter (eligible f),
        (rrRun snap f c0 (m * (snap.filter (eligible f)).length)).count (Except.ok n) = m) ∧
      (∀ i, i < m * (snap.filter (eligible f)).length →
        (rrRun snap f c0 (m * (snap.filter (eligible f)).length)).get? i =
          ((snap.filter (eligible f)).get?
            ((c0 + i) % (snap.filter (eligible f)).length)).map Except.ok) ∧
      (∀ c : Nat, (selectRoundRobin snap f c).2 = c + 1) := by
  intro snap f c0 m hnd hne
  refine ⟨?_, ?_, fun c => rfl⟩
  · intro n hn
    obtain ⟨jstar, hj⟩ := List.mem_iff_get.mp hn
    rw [rrRun_eq_map, List.count_eq_countP, List.countP_map]
    have hcong : ∀ i ∈ List.range (m * (snap.filter (eligible f)).length),
        (((· == Except.ok n) ∘ fun i => (selectRoundRobin snap f (c0 + i)).1) i = true) ↔
          ((fun i =>
            decide ((c0 + i) % (snap.filter (eligible f)).length = jstar.val)) i = true) := by
      intro i _
      simp only [Function.comp]
      rw [selectRoundRobin_ok snap f (c0 + i) hne]
      rw [beq_iff_eq, Except.ok.injEq, decide_eq_true_eq]
      rw [← hj]
      rw [List.Nodup.get_inj_iff hnd]
      constructor
      · intro hfe
        exact congrArg Fin.val hfe
      · intro hv
        exact Fin.ext hv
    rw [List.countP_congr hcong]
    exact countP_range_mul c0 jstar.val _ m jstar.isLt
  · intro i hi
    rw [rrRun_eq_map, List.get?_map, List.get?_eq_getElem?, List.getElem?_range hi]
    have hlt : (c0 + i) % (snap.filter (eligible f)).length <
        (snap.filter (eligible f)).length :=
      Nat.mod_lt _ (List.length_pos.mpr hne)
    rw [List.get?_eq_get hlt]
    simp only [Option.map_some']
    rw [selectRoundRobin_ok snap f (c0 + i) hne]

/-- C2 witness: the spec scenario — three nodes, no filter, 30 calls with no
membership change: each node is selected exactly 10 times, calls proceed in
cyclic order starting from `n1`, and each call advances the counter once. -/
theorem selectRoundRobin_fair_witness :
    (∀ n ∈ snap3.filter (eligible noFilter),
      (rrRun snap3 noFilter 0 (10 * (snap3.filter (eligible noFilter)).length)).count
        (Except.ok n) = 10) ∧
    (∀ i, i < 10 * (snap3.filter (eligible noFilter)).length →
      (rrRun snap3 noFilter 0 (10 * (snap3.filter (eligible noFilter)).length)).get? i =
        ((snap3.filter (eligible noFilter)).get?
          ((0 + i) % (snap3.filter (eligible noFilter)).length)).map Except.ok) ∧
    (∀ c : Nat, (selectRoundRobin snap3 noFilter c).2 = c + 1) :=
  selectRoundRobin_fair snap3 noFilter 0 10 (by decide) (by decide)

end Alternator

